import Mathlib

/-!
# Breakout game (`game.js`): shallow embedding and verified properties

The script keeps its whole session in global variables (`ball`, `bat`, `bricks`, `score`,
`highscore`, `gameOver`).  Here they are the fields of one record `State`, and every function of
the script that mutates them becomes a function from `State` to `State`.  Calls into the browser
(sounds, canvas drawing, `localStorage.setItem`, `requestAnimationFrame`) are recorded, in program
order, as a list of `Effect`s returned next to the new state.

JavaScript numbers are modelled by exact rationals `ℚ`; the counters `score` and `highscore`
are natural numbers (the stored high score is assumed to hold a non-negative integer, a
string that `score > highscore` compares numerically).  Colours are display attributes that no
function of the script reads back, so the records do not carry them.
-/

namespace Breakout

/-! ## Values read from the browser when the script is loaded -/

/-- Values the script reads once at load time: the window size, the numeric CSS custom
properties (each read through `parseInt`), the sample returned by `Math.random()` and the
`highscore` entry of `localStorage` (`none` when the key is absent). -/
structure Env where
  canvasWidth : ℚ
  canvasHeight : ℚ
  ballRadius : ℚ
  batWidth : ℚ
  batHeight : ℚ
  brickPadding : ℚ
  brickHeight : ℚ
  random : ℚ
  storedHighscore : Option ℕ
  deriving DecidableEq, Repr

/-- Source: `const rows = 3;` -/
def rows : ℕ := 3

/-- Source: `const cols = 10;` -/
def cols : ℕ := 10

/-- Source: `const brickWidth = canvas.width / cols - brickPadding;` -/
def brickWidth (e : Env) : ℚ := e.canvasWidth / (cols : ℚ) - e.brickPadding

/-! ## Data model -/

/-- Source: the object `ball` (without `color`). -/
structure Ball where
  x : ℚ
  y : ℚ
  radius : ℚ
  dx : ℚ
  dy : ℚ
  deriving DecidableEq, Repr

/-- Source: the object `bat` (without `color`). -/
structure Bat where
  width : ℚ
  height : ℚ
  x : ℚ
  y : ℚ
  dx : ℚ
  deriving DecidableEq, Repr

/-- Source: the objects pushed onto `bricks` by `setupBricks`. -/
structure Brick where
  x : ℚ
  y : ℚ
  status : Bool
  deriving DecidableEq, Repr

/-- The global variables of the script. -/
structure State where
  ball : Ball
  bat : Bat
  bricks : List Brick
  score : ℕ
  highscore : ℕ
  gameOver : Bool
  deriving DecidableEq, Repr

/-- The three `Audio` objects of the script. -/
inductive Sound where
  | hitBrickSound
  | hitBatOrWallSound
  | gameOverSound
  deriving DecidableEq, Repr

/-- Calls into the browser, recorded in program order. `rewind s` is `s.currentTime = 0`,
`play s` is `s.play()`, `setItem n` is `localStorage.setItem("highscore", n)`; the four drawing
helpers and `ctx.clearRect` are recorded by name, `drawMessage` with its text. -/
inductive Effect where
  | rewind (s : Sound)
  | play (s : Sound)
  | setItem (n : ℕ)
  | clearRect
  | drawBricks
  | drawBall
  | drawBat
  | drawScore
  | drawMessage (text : String)
  | requestAnimationFrame
  deriving DecidableEq, Repr

/-! ## Initialisation -/

/-- Source: the inner loop of `setupBricks`, `for (let col = 0; col < cols; col++) bricks.push(..)`,
for one value of `row`. -/
def setupRow (e : Env) (row : ℕ) : List Brick :=
  (List.range cols).map fun col =>
    { x := (col : ℚ) * (brickWidth e + e.brickPadding) + e.brickPadding / 2
      y := (row : ℚ) * (e.brickHeight + e.brickPadding) + 30
      status := true }

/-- Source: `setupBricks`; the value is the array `bricks` after the call. -/
def setupBricks (e : Env) : List Brick :=
  ((List.range rows).map (setupRow e)).flatten

/-- The globals after the script has been loaded and `setupBricks()` has run, just before the
first call of `draw()`. -/
def init (e : Env) : State :=
  { ball :=
      { x := e.canvasWidth / 2
        y := e.canvasHeight - 40
        radius := e.ballRadius
        dx := (e.random * 2 - 1) * 4
        dy := -4 }
    bat :=
      { width := e.batWidth
        height := e.batHeight
        x := e.canvasWidth / 2 - e.batWidth / 2
        y := e.canvasHeight - e.batHeight
        dx := 8 }
    bricks := setupBricks e
    score := 0
    highscore := e.storedHighscore.getD 0
    gameOver := false }

/-! ## `moveBall` -/

/-- Source: `ball.x += ball.dx; ball.y += ball.dy;` -/
def integrate (s : State) : State :=
  { s with ball := { s.ball with x := s.ball.x + s.ball.dx, y := s.ball.y + s.ball.dy } }

/-- Source: the side-wall test of `moveBall`. -/
def sideWalls (e : Env) (s : State) : State × List Effect :=
  if s.ball.x + s.ball.radius > e.canvasWidth ∨ s.ball.x - s.ball.radius < 0 then
    ({ s with ball := { s.ball with dx := s.ball.dx * -1 } },
      [Effect.rewind Sound.hitBatOrWallSound, Effect.play Sound.hitBatOrWallSound])
  else (s, [])

/-- Source: the ceiling test of `moveBall`. -/
def ceiling (s : State) : State × List Effect :=
  if s.ball.y - s.ball.radius < 0 then
    ({ s with ball := { s.ball with dy := s.ball.dy * -1 } },
      [Effect.rewind Sound.hitBatOrWallSound, Effect.play Sound.hitBatOrWallSound])
  else (s, [])

/-- Source: the bat test of `moveBall`. -/
def batHit (s : State) : State × List Effect :=
  if s.ball.y + s.ball.radius > s.bat.y ∧ s.ball.x > s.bat.x ∧
      s.ball.x < s.bat.x + s.bat.width then
    ({ s with ball := { s.ball with dy := s.ball.dy * -1 } },
      [Effect.rewind Sound.hitBatOrWallSound, Effect.play Sound.hitBatOrWallSound])
  else (s, [])

/-- Source: the body of the callback of `bricks.forEach` in `moveBall`, run on one brick.
Returns the globals, the brick and the effects after the callback. -/
def brickCallback (e : Env) (s : State) (brick : Brick) : State × Brick × List Effect :=
  if brick.status then
    if s.ball.x > brick.x ∧ s.ball.x < brick.x + brickWidth e ∧
        s.ball.y - s.ball.radius < brick.y + e.brickHeight ∧
        s.ball.y + s.ball.radius > brick.y then
      let s1 : State :=
        { s with ball := { s.ball with dy := s.ball.dy * -1 }, score := s.score + 1 }
      let fx := [Effect.rewind Sound.hitBrickSound, Effect.play Sound.hitBrickSound]
      if s1.score > s1.highscore then
        ({ s1 with highscore := s1.score }, { brick with status := false },
          fx ++ [Effect.setItem s1.score])
      else (s1, { brick with status := false }, fx)
    else (s, brick, [])
  else (s, brick, [])

/-- Source: `bricks.forEach(...)` in `moveBall`: the callback runs on the bricks in array order,
each call seeing the globals left by the previous one. The field `bricks` of the state threaded
through the loop is not read by the callback; `moveBall` stores the resulting array. -/
def forEachBrick (e : Env) : State → List Brick → State × List Brick × List Effect
  | s, [] => (s, [], [])
  | s, brick :: rest =>
    let r := brickCallback e s brick
    let q := forEachBrick e r.1 rest
    (q.1, r.2.1 :: q.2.1, r.2.2 ++ q.2.2)

/-- Source: the brick loop of `moveBall`, with the array written back. -/
def brickLoop (e : Env) (s : State) : State × List Effect :=
  let q := forEachBrick e s s.bricks
  ({ q.1 with bricks := q.2.1 }, q.2.2)

/-- Source: the bottom-edge test of `moveBall`. -/
def lossCheck (e : Env) (s : State) : State × List Effect :=
  if s.ball.y + s.ball.radius > e.canvasHeight then
    ({ s with gameOver := true }, [Effect.play Sound.gameOverSound])
  else (s, [])

/-- Source: `moveBall`. -/
def moveBall (e : Env) (s : State) : State × List Effect :=
  let s1 := integrate s
  let r2 := sideWalls e s1
  let r3 := ceiling r2.1
  let r4 := batHit r3.1
  let r5 := brickLoop e r4.1
  let r6 := lossCheck e r5.1
  (r6.1, r2.2 ++ r3.2 ++ r4.2 ++ r5.2 ++ r6.2)

/-! ## `moveBat` and `draw` -/

/-- Source: `moveBat(e)`; `key` is `e.key`. The two `if`s run one after the other. -/
def moveBat (e : Env) (key : String) (s : State) : State :=
  let s1 : State :=
    if key = "ArrowLeft" ∧ s.bat.x > 0 then
      { s with bat := { s.bat with x := s.bat.x - s.bat.dx } }
    else s
  if key = "ArrowRight" ∧ s1.bat.x + s1.bat.width < e.canvasWidth then
    { s1 with bat := { s1.bat with x := s1.bat.x + s1.bat.dx } }
  else s1

/-- Source: one call of `draw()`, one animation frame. -/
def draw (e : Env) (s : State) : State × List Effect :=
  if s.gameOver then (s, [Effect.drawMessage "GAME OVER"])
  else
    let r := moveBall e s
    let fx := [Effect.clearRect, Effect.drawBricks, Effect.drawBall, Effect.drawBat,
      Effect.drawScore] ++ r.2
    if r.1.score = rows * cols then (r.1, fx ++ [Effect.drawMessage "WIN"])
    else (r.1, fx ++ [Effect.requestAnimationFrame])

/-! ## Sessions -/

/-- What can happen to the globals after initialisation: a call of `moveBall` (made by a frame)
or a `keydown` event delivered to `moveBat`. -/
inductive Event where
  | moveBall
  | keydown (key : String)
  deriving DecidableEq, Repr

/-- The globals after one event. -/
def step (e : Env) (s : State) : Event → State
  | Event.moveBall => (moveBall e s).1
  | Event.keydown key => moveBat e key s

/-- The globals after a finite sequence of events, oldest first. -/
def run (e : Env) (s : State) (evs : List Event) : State :=
  evs.foldl (step e) s

/-- Number of bricks with `status = true`. -/
def alive (bs : List Brick) : ℕ := (bs.filter fun b => b.status).length

/-- The overlap of a ball centred at `(x, y)` with radius `r` and a brick, as the properties
below state it: `brick.x < x < brick.x + brickWidth`, `y - r < brick.y + brickHeight` and
`y + r > brick.y`. -/
def overlaps (e : Env) (x y r : ℚ) (brick : Brick) : Prop :=
  brick.x < x ∧ x < brick.x + brickWidth e ∧ y - r < brick.y + e.brickHeight ∧ y + r > brick.y

instance (e : Env) (x y r : ℚ) (brick : Brick) : Decidable (overlaps e x y r brick) := by
  unfold overlaps; infer_instance

/-- A brick that is alive and overlaps the ball at `(x, y)` with radius `r`. -/
def struck (e : Env) (x y r : ℚ) (brick : Brick) : Bool :=
  brick.status && decide (overlaps e x y r brick)

/-- Number of alive bricks of `bs` that overlap the ball at `(x, y)` with radius `r`. -/
def struckCount (e : Env) (x y r : ℚ) (bs : List Brick) : ℕ :=
  (bs.filter (struck e x y r)).length

/-- Number of sign changes of `dy` caused by the ceiling test, `[y - r < 0]`. -/
def ceilingFlips (y r : ℚ) : ℕ := if y - r < 0 then 1 else 0

/-- Number of sign changes of `dy` caused by the bat test,
`[y + r > bat.y and bat.x < x < bat.x + bat.width]`. -/
def batFlips (bat : Bat) (x y r : ℚ) : ℕ :=
  if y + r > bat.y ∧ bat.x < x ∧ x < bat.x + bat.width then 1 else 0

/-- The session invariant: every brick is either alive or counted in the score, and the high
score is at least the score. -/
def Inv (s : State) : Prop :=
  s.score + alive s.bricks = rows * cols ∧ s.score ≤ s.highscore

/-- A typical configuration: an 800 x 600 window, ball radius 10, a 100 x 10 bat, bricks of
height 20 with padding 10, `Math.random()` returning 0.75 and no stored high score. -/
def sampleEnv : Env :=
  { canvasWidth := 800
    canvasHeight := 600
    ballRadius := 10
    batWidth := 100
    batHeight := 10
    brickPadding := 10
    brickHeight := 20
    random := 3 / 4
    storedHighscore := none }

/-- The effects `moveBall` can cause: sounds and the write of the high score. -/
def Effect.isPhysics : Effect → Bool
  | Effect.rewind _ => true
  | Effect.play _ => true
  | Effect.setItem _ => true
  | _ => false

/-- The five drawing calls that open every frame that is still being played. -/
def frameDrawing : List Effect :=
  [Effect.clearRect, Effect.drawBricks, Effect.drawBall, Effect.drawBat, Effect.drawScore]

/-- A window only 100 pixels high, otherwise as `sampleEnv`, in which `Math.random()` returned 0
(so the ball starts with `dx = -4`): the lowest row of bricks, at `y = 90`, reaches the bottom edge
of the canvas. -/
def lowEnv : Env := { sampleEnv with canvasHeight := 100, random := 0 }

/-- The events of one animation frame of a played session, written as one character: `L` is an
`ArrowLeft` key event followed by the `moveBall` call of the frame, `R` an `ArrowRight` key event
followed by it, any other character the `moveBall` call alone. -/
def eventsOf (c : Char) : List Event :=
  if c = 'L' then [Event.keydown "ArrowLeft", Event.moveBall]
  else if c = 'R' then [Event.keydown "ArrowRight", Event.moveBall]
  else [Event.moveBall]

/-- The events of a run of frames, one character per frame. -/
def play (row : String) : List Event := row.data.flatMap eventsOf

/-- A session played in `lowEnv`, 393 frames in rows of 25, with at most one key event per frame:
the player destroys 29 bricks and leaves the brick of row 2, column 4 (at `x = 325`, `y = 90`). -/
def lastBrickRows : List String :=
  [".........................",
    "......LLLLLLLLLLLLLLLLLLL",
    "L.L.L.L.L.L.L.LR......LLL",
    "LLLLL..LLL.L.L.L.L.L.LR..",
    ".........................",
    "............RRRRRRRRRRRRR",
    ".........................",
    "...RRRRRRRRRRRRRRRRRRRRRR",
    "RRRRRRR.R.R.R.R.R.R.R.R.R",
    "L...........RRRRRRRRRRRRR",
    "R.R.R.R.R.R.R.RL.........",
    "..RRRRRRRRRRRRRR.R.......",
    "..................L.L.L.L",
    ".L.L.L.L.L.L.L.L.L.L.L.L.",
    "L.L.L.L.L.L.L.L.L.L.L.L.L",
    ".L.L.L.L.L.L.L.L.."]

/-- The events of the session `lastBrickRows`, oldest first. -/
def lastBrickSession : List Event := lastBrickRows.flatMap play

/-- The globals after the session `lastBrickSession`, started from the initial state of `lowEnv`;
`draw()` then runs frame 394. -/
def lastBrickState : State := run lowEnv (init lowEnv) lastBrickSession

/-- Globals of a session in `lowEnv` that is still being played, written compactly: the ball at
`(x, y)` with velocity `(dx, dy)`, the bat at `batX`, the score, and the alive bricks as the bits
of `mask` (bit `i` for the brick at index `i`). -/
def snapshot (x y dx dy batX : ℚ) (score mask : ℕ) : State :=
  { ball := { x := x, y := y, radius := 10, dx := dx, dy := dy }
    bat := { width := 100, height := 10, x := batX, y := 90, dx := 8 }
    bricks := (setupBricks lowEnv).enum.map fun ib => { ib.2 with status := mask.testBit ib.1 }
    score := score
    highscore := score
    gameOver := false }

/-- Globals at the start of a frame of a game in `sampleEnv` that is being lost: the bat is far
to the left and the ball is about to pass the bottom edge. The bricks and the score are those of a
fresh session; the frame reads none of them. -/
def missedBallState : State :=
  { ball := { x := 400, y := 588, radius := 10, dx := 2, dy := 4 }
    bat := { width := 100, height := 10, x := 6, y := 590, dx := 8 }
    bricks := setupBricks sampleEnv
    score := 0
    highscore := 0
    gameOver := false }

/-! ## The brick loop in closed form -/

theorem brickCallback_hit (e : Env) (s : State) (b : Brick)
    (h : struck e s.ball.x s.ball.y s.ball.radius b = true) :
    (brickCallback e s b).1 =
        { s with ball := { s.ball with dy := s.ball.dy * -1 }, score := s.score + 1,
                 highscore := max s.highscore (s.score + 1) } ∧
      (brickCallback e s b).2.1 = { b with status := false } := by
  simp only [struck, Bool.and_eq_true, decide_eq_true_eq, overlaps] at h
  obtain ⟨hs, h1, h2, h3, h4⟩ := h
  have hc : s.ball.x > b.x ∧ s.ball.x < b.x + brickWidth e ∧
        s.ball.y - s.ball.radius < b.y + e.brickHeight ∧
        s.ball.y + s.ball.radius > b.y := ⟨h1, h2, h3, h4⟩
  unfold brickCallback
  rw [if_pos hs, if_pos hc]
  by_cases hh : s.score + 1 > s.highscore
  · simp [hh, max_eq_right (le_of_lt hh)]
  · simp [hh, max_eq_left (not_lt.mp hh)]

theorem brickCallback_miss (e : Env) (s : State) (b : Brick)
    (h : struck e s.ball.x s.ball.y s.ball.radius b = false) :
    brickCallback e s b = (s, b, []) := by
  unfold brickCallback
  by_cases hs : b.status = true
  · have hc : ¬ (s.ball.x > b.x ∧ s.ball.x < b.x + brickWidth e ∧
        s.ball.y - s.ball.radius < b.y + e.brickHeight ∧
        s.ball.y + s.ball.radius > b.y) := by
      intro hc
      simp [struck, hs, overlaps] at h
      obtain ⟨h1, h2, h3, h4⟩ := hc
      exact absurd h4 (not_lt.mpr (h h1 h2 h3))
    rw [if_pos hs, if_neg hc]
  · rw [if_neg hs]

/-- The brick loop, described in closed form. -/
theorem forEachBrick_spec (e : Env) (bs : List Brick) : ∀ s : State,
    (forEachBrick e s bs).1.ball =
        { s.ball with dy := s.ball.dy * (-1) ^ struckCount e s.ball.x s.ball.y s.ball.radius bs } ∧
      (forEachBrick e s bs).1.score = s.score + struckCount e s.ball.x s.ball.y s.ball.radius bs ∧
      (forEachBrick e s bs).1.bat = s.bat ∧
      (forEachBrick e s bs).1.gameOver = s.gameOver ∧
      (forEachBrick e s bs).2.1 =
        bs.map (fun b => if struck e s.ball.x s.ball.y s.ball.radius b then
          { b with status := false } else b) := by
  induction bs with
  | nil => intro s; simp [forEachBrick, struckCount]
  | cons b rest ih =>
    intro s
    cases hb : struck e s.ball.x s.ball.y s.ball.radius b
    · have hm := brickCallback_miss e s b hb
      obtain ⟨i1, i2, i3, i4, i5⟩ := ih s
      simp only [forEachBrick, hm, struckCount, List.filter_cons, List.map_cons, hb]
      simp only [struckCount] at i1 i2
      exact ⟨i1, i2, i3, i4, by simp [i5]⟩
    · obtain ⟨h1, h2⟩ := brickCallback_hit e s b hb
      obtain ⟨i1, i2, i3, i4, i5⟩ := ih (brickCallback e s b).1
      simp only [h1] at i1 i2 i3 i4 i5
      simp only [forEachBrick, struckCount, List.filter_cons, List.map_cons, hb, h2,
        List.length_cons, if_true, h1]
      simp only [struckCount] at i1 i2
      refine ⟨?_, ?_, i3, i4, by rw [i5]⟩
      · rw [i1]; simp [pow_succ]
      · rw [i2]; ring

theorem forEachBrick_highscore (e : Env) (bs : List Brick) : ∀ s : State,
    s.highscore ≤ (forEachBrick e s bs).1.highscore ∧
      (s.score ≤ s.highscore → (forEachBrick e s bs).1.score ≤ (forEachBrick e s bs).1.highscore) := by
  induction bs with
  | nil => intro s; simp [forEachBrick]
  | cons b rest ih =>
    intro s
    cases hb : struck e s.ball.x s.ball.y s.ball.radius b
    · have hm := brickCallback_miss e s b hb
      simpa [forEachBrick, hm] using ih s
    · obtain ⟨h1, -⟩ := brickCallback_hit e s b hb
      obtain ⟨i1, i2⟩ := ih (brickCallback e s b).1
      simp only [forEachBrick]
      rw [h1] at i1 i2 ⊢
      simp only at i1 i2 ⊢
      exact ⟨le_trans (le_max_left _ _) i1, fun _ => i2 (le_max_right _ _)⟩


theorem sideWalls_fst (e : Env) (t : State) :
    (sideWalls e t).1 = { t with ball := { t.ball with dx :=
      if t.ball.x + t.ball.radius > e.canvasWidth ∨ t.ball.x - t.ball.radius < 0 then
        -t.ball.dx else t.ball.dx } } := by
  unfold sideWalls
  split_ifs with h <;> simp

theorem ceiling_fst (t : State) :
    (ceiling t).1 =
      { t with
        ball := { t.ball with dy := t.ball.dy * (-1) ^ ceilingFlips t.ball.y t.ball.radius } } := by
  unfold ceiling ceilingFlips
  split_ifs with h <;> simp

theorem batHit_fst (t : State) :
    (batHit t).1 =
      { t with
        ball :=
          { t.ball with dy := t.ball.dy * (-1) ^ batFlips t.bat t.ball.x t.ball.y t.ball.radius } } := by
  unfold batHit batFlips
  split_ifs with h <;> simp

theorem lossCheck_fst (e : Env) (t : State) :
    (lossCheck e t).1 =
      { t with gameOver := t.gameOver || decide (t.ball.y + t.ball.radius > e.canvasHeight) } := by
  unfold lossCheck
  split_ifs with h <;> simp [h]

theorem brickLoop_spec (e : Env) (t : State) :
    (brickLoop e t).1.ball =
        { t.ball with dy := t.ball.dy * (-1) ^ struckCount e t.ball.x t.ball.y t.ball.radius t.bricks } ∧
      (brickLoop e t).1.score = t.score + struckCount e t.ball.x t.ball.y t.ball.radius t.bricks ∧
      (brickLoop e t).1.bat = t.bat ∧ (brickLoop e t).1.gameOver = t.gameOver ∧
      (brickLoop e t).1.bricks = t.bricks.map (fun b =>
        if struck e t.ball.x t.ball.y t.ball.radius b then { b with status := false } else b) := by
  simpa [brickLoop] using forEachBrick_spec e t.bricks t

theorem moveBall_spec (e : Env) (s : State) :
    (moveBall e s).1.ball.x = s.ball.x + s.ball.dx ∧
    (moveBall e s).1.ball.y = s.ball.y + s.ball.dy ∧
    (moveBall e s).1.ball.radius = s.ball.radius ∧
    (moveBall e s).1.ball.dx =
      (if s.ball.x + s.ball.dx + s.ball.radius > e.canvasWidth ∨
          s.ball.x + s.ball.dx - s.ball.radius < 0 then -s.ball.dx else s.ball.dx) ∧
    (moveBall e s).1.ball.dy =
      s.ball.dy * (-1) ^ (ceilingFlips (s.ball.y + s.ball.dy) s.ball.radius +
        batFlips s.bat (s.ball.x + s.ball.dx) (s.ball.y + s.ball.dy) s.ball.radius +
        struckCount e (s.ball.x + s.ball.dx) (s.ball.y + s.ball.dy) s.ball.radius s.bricks) ∧
    (moveBall e s).1.bat = s.bat ∧
    (moveBall e s).1.bricks =
      s.bricks.map (fun b =>
        if struck e (s.ball.x + s.ball.dx) (s.ball.y + s.ball.dy) s.ball.radius b then
          { b with status := false } else b) ∧
    (moveBall e s).1.score =
      s.score + struckCount e (s.ball.x + s.ball.dx) (s.ball.y + s.ball.dy) s.ball.radius s.bricks ∧
    (moveBall e s).1.gameOver =
      (s.gameOver || decide (s.ball.y + s.ball.dy + s.ball.radius > e.canvasHeight)) := by
  unfold moveBall
  simp only [lossCheck_fst]
  obtain ⟨k1, k2, k3, k4, k5⟩ := brickLoop_spec e (batHit (ceiling (sideWalls e (integrate s)).1).1).1
  simp only [k1, k2, k3, k4, k5]
  simp only [batHit_fst, ceiling_fst, sideWalls_fst, integrate]
  simp only [pow_add, mul_assoc, and_self, true_and]

/-! ## Session invariants -/

theorem alive_map_struck (e : Env) (x y r : ℚ) (bs : List Brick) :
    alive (bs.map (fun b => if struck e x y r b then { b with status := false } else b)) +
      struckCount e x y r bs = alive bs := by
  induction bs with
  | nil => simp [alive, struckCount]
  | cons b rest ih =>
    simp only [alive, struckCount] at ih ⊢
    cases hb : struck e x y r b
    · cases hs : b.status <;> simp [List.filter_cons, hb, hs] <;> omega
    · have hs : b.status = true := by
        simp only [struck, Bool.and_eq_true] at hb
        exact hb.1
      simp [List.filter_cons, hb, hs]
      omega

theorem moveBall_score_alive (e : Env) (s : State) :
    (moveBall e s).1.score + alive (moveBall e s).1.bricks = s.score + alive s.bricks := by
  obtain ⟨-, -, -, -, -, -, hb, hsc, -⟩ := moveBall_spec e s
  rw [hb, hsc]
  have := alive_map_struck e (s.ball.x + s.ball.dx) (s.ball.y + s.ball.dy) s.ball.radius s.bricks
  omega

theorem moveBall_highscore (e : Env) (s : State) :
    s.highscore ≤ (moveBall e s).1.highscore ∧
      (s.score ≤ s.highscore → (moveBall e s).1.score ≤ (moveBall e s).1.highscore) := by
  have h := forEachBrick_highscore e (batHit (ceiling (sideWalls e (integrate s)).1).1).1.bricks
    (batHit (ceiling (sideWalls e (integrate s)).1).1).1
  simp only [batHit_fst, ceiling_fst, sideWalls_fst, integrate] at h
  unfold moveBall
  simp only [lossCheck_fst, brickLoop]
  simp only [batHit_fst, ceiling_fst, sideWalls_fst, integrate]
  exact h

theorem moveBat_fields (e : Env) (key : String) (s : State) :
    (moveBat e key s).score = s.score ∧ (moveBat e key s).highscore = s.highscore ∧
      (moveBat e key s).bricks = s.bricks ∧ (moveBat e key s).ball = s.ball ∧
      (moveBat e key s).gameOver = s.gameOver := by
  unfold moveBat
  dsimp only
  split_ifs <;> exact ⟨rfl, rfl, rfl, rfl, rfl⟩

theorem setupBricks_alive (e : Env) : alive (setupBricks e) = rows * cols := by
  simp [alive, setupBricks, setupRow, rows, cols, List.range_succ]

theorem init_inv (e : Env) : Inv (init e) := by
  refine ⟨?_, ?_⟩
  · simp [init, setupBricks_alive]
  · simp [init]

theorem step_inv (e : Env) (s : State) (ev : Event) (h : Inv s) : Inv (step e s ev) := by
  cases ev with
  | moveBall =>
    refine ⟨?_, ?_⟩
    · simp only [step]; rw [moveBall_score_alive]; exact h.1
    · exact (moveBall_highscore e s).2 h.2
  | keydown key =>
    obtain ⟨h1, h2, h3, -, -⟩ := moveBat_fields e key s
    simp only [step, Inv, h1, h2, h3]
    exact h

theorem run_inv (e : Env) (evs : List Event) : ∀ s : State, Inv s → Inv (run e s evs) := by
  induction evs with
  | nil => intro s h; simpa [run] using h
  | cons ev rest ih =>
    intro s h
    have := ih (step e s ev) (step_inv e s ev h)
    simpa [run] using this

theorem step_mono (e : Env) (s : State) (ev : Event) :
    s.score ≤ (step e s ev).score ∧ s.highscore ≤ (step e s ev).highscore := by
  cases ev with
  | moveBall =>
    refine ⟨?_, (moveBall_highscore e s).1⟩
    obtain ⟨-, -, -, -, -, -, -, hsc, -⟩ := moveBall_spec e s
    simp only [step, hsc]; omega
  | keydown key =>
    obtain ⟨h1, h2, -, -, -⟩ := moveBat_fields e key s
    simp [step, h1, h2]

theorem alive_eq_zero_iff (bs : List Brick) :
    alive bs = 0 ↔ bs.all (fun b => !b.status) = true := by
  simp [alive, List.filter_eq_nil_iff]

theorem inv_win_iff (s : State) (h : Inv s) :
    s.score = rows * cols ↔ s.bricks.all (fun b => !b.status) = true := by
  rw [← alive_eq_zero_iff]
  have := h.1
  omega

/-! ## The bat -/

theorem moveBat_bat (e : Env) (key : String) (s : State) :
    (moveBat e key s).bat.dx = s.bat.dx ∧ (moveBat e key s).bat.width = s.bat.width ∧
      ((moveBat e key s).bat.x = s.bat.x ∨
        (0 < s.bat.x ∧ (moveBat e key s).bat.x = s.bat.x - s.bat.dx) ∨
        (s.bat.x + s.bat.width < e.canvasWidth ∧
          (moveBat e key s).bat.x = s.bat.x + s.bat.dx)) := by
  unfold moveBat
  dsimp only
  by_cases hl : key = "ArrowLeft" ∧ s.bat.x > 0
  · have hr : ¬ (key = "ArrowRight" ∧ s.bat.x - s.bat.dx + s.bat.width < e.canvasWidth) := by
      rintro ⟨hk, -⟩
      rw [hl.1] at hk
      exact absurd hk (by decide)
    rw [if_pos hl]
    dsimp only
    rw [if_neg hr]
    exact ⟨rfl, rfl, Or.inr (Or.inl ⟨hl.2, rfl⟩)⟩
  · rw [if_neg hl]
    by_cases hr : key = "ArrowRight" ∧ s.bat.x + s.bat.width < e.canvasWidth
    · rw [if_pos hr]
      exact ⟨rfl, rfl, Or.inr (Or.inr ⟨hr.2, rfl⟩)⟩
    · rw [if_neg hr]
      exact ⟨rfl, rfl, Or.inl rfl⟩

/-- The bat never leaves the playfield by a full step: what the guards of `moveBat` do
guarantee in every session whose bat is not wider than the canvas. -/
theorem bat_x_within_one_step (e : Env) (hw : e.batWidth ≤ e.canvasWidth) (evs : List Event) :
    -8 < (run e (init e) evs).bat.x ∧
      (run e (init e) evs).bat.x < e.canvasWidth - e.batWidth + 8 := by
  have key : ∀ (evs : List Event) (s : State),
      (s.bat.dx = 8 ∧ s.bat.width = e.batWidth ∧ -8 < s.bat.x ∧
        s.bat.x < e.canvasWidth - e.batWidth + 8) →
      ((run e s evs).bat.dx = 8 ∧ (run e s evs).bat.width = e.batWidth ∧
        -8 < (run e s evs).bat.x ∧ (run e s evs).bat.x < e.canvasWidth - e.batWidth + 8) := by
    intro evs
    induction evs with
    | nil => intro s h; simpa [run] using h
    | cons ev rest ih =>
      intro s h
      have hs : (step e s ev).bat.dx = 8 ∧ (step e s ev).bat.width = e.batWidth ∧
          -8 < (step e s ev).bat.x ∧ (step e s ev).bat.x < e.canvasWidth - e.batWidth + 8 := by
        obtain ⟨h1, h2, h3, h4⟩ := h
        cases ev with
        | moveBall =>
          have hb := (moveBall_spec e s).2.2.2.2.2.1
          simp only [step, hb]
          exact ⟨h1, h2, h3, h4⟩
        | keydown k =>
          obtain ⟨m1, m2, m3⟩ := moveBat_bat e k s
          simp only [step]
          refine ⟨m1.trans h1, m2.trans h2, ?_⟩
          rcases m3 with m | ⟨g, m⟩ | ⟨g, m⟩
          · rw [m]; exact ⟨h3, h4⟩
          · rw [m, h1]; constructor <;> linarith
          · rw [m, h1]; rw [h2] at g; constructor <;> linarith
      have := ih (step e s ev) hs
      simpa [run] using this
  have h0 := key evs (init e) ⟨rfl, rfl, by simp only [init]; linarith, by simp only [init]; linarith⟩
  exact ⟨h0.2.2.1, h0.2.2.2⟩

/-! ## Frames -/

theorem brickCallback_physics (e : Env) (s : State) (b : Brick) :
    ∀ fx ∈ (brickCallback e s b).2.2, fx.isPhysics = true := by
  unfold brickCallback
  dsimp only
  split_ifs <;> simp [Effect.isPhysics]

theorem forEachBrick_physics (e : Env) (bs : List Brick) :
    ∀ s : State, ∀ fx ∈ (forEachBrick e s bs).2.2, fx.isPhysics = true := by
  induction bs with
  | nil => intro s fx h; simp [forEachBrick] at h
  | cons b rest ih =>
    intro s fx h
    simp only [forEachBrick, List.mem_append] at h
    rcases h with h | h
    · exact brickCallback_physics e s b fx h
    · exact ih _ fx h

theorem moveBall_physics (e : Env) (s : State) :
    ∀ fx ∈ (moveBall e s).2, fx.isPhysics = true := by
  intro fx h
  simp only [moveBall, List.mem_append] at h
  rcases h with (((h | h) | h) | h) | h
  · unfold sideWalls at h
    split_ifs at h <;> simp at h
    rcases h with rfl | rfl <;> rfl
  · unfold ceiling at h
    split_ifs at h <;> simp at h
    rcases h with rfl | rfl <;> rfl
  · unfold batHit at h
    split_ifs at h <;> simp at h
    rcases h with rfl | rfl <;> rfl
  · exact forEachBrick_physics e _ _ fx h
  · unfold lossCheck at h
    split_ifs at h <;> simp at h
    rw [h]; rfl

theorem draw_of_gameOver (e : Env) (s : State) (h : s.gameOver = true) :
    draw e s = (s, [Effect.drawMessage "GAME OVER"]) := by
  simp [draw, h]

theorem draw_of_win (e : Env) (s : State) (h : s.gameOver = false)
    (hw : (moveBall e s).1.score = rows * cols) :
    draw e s = ((moveBall e s).1,
      frameDrawing ++ (moveBall e s).2 ++ [Effect.drawMessage "WIN"]) := by
  simp [draw, h, hw, frameDrawing]

theorem draw_of_continue (e : Env) (s : State) (h : s.gameOver = false)
    (hw : (moveBall e s).1.score ≠ rows * cols) :
    draw e s = ((moveBall e s).1,
      frameDrawing ++ (moveBall e s).2 ++ [Effect.requestAnimationFrame]) := by
  simp [draw, h, hw, frameDrawing]

theorem moveBall_sets_gameOver (e : Env) (s : State)
    (hl : s.ball.y + s.ball.dy + s.ball.radius > e.canvasHeight) :
    (moveBall e s).1.gameOver = true := by
  rw [(moveBall_spec e s).2.2.2.2.2.2.2.2]
  simp [hl]

theorem draw_no_loss_message (e : Env) (s : State) (h : s.gameOver = false) :
    Effect.drawMessage "GAME OVER" ∉ (draw e s).2 := by
  intro hm
  have hp := moveBall_physics e s
  by_cases hw : (moveBall e s).1.score = rows * cols
  · rw [draw_of_win e s h hw] at hm
    simp only [frameDrawing, List.mem_append, List.mem_cons, List.mem_singleton] at hm
    rcases hm with (hm | hm) | hm
    · simp at hm
    · exact absurd (hp _ hm) (by simp [Effect.isPhysics])
    · simp at hm
  · rw [draw_of_continue e s h hw] at hm
    simp only [frameDrawing, List.mem_append, List.mem_cons, List.mem_singleton] at hm
    rcases hm with (hm | hm) | hm
    · simp at hm
    · exact absurd (hp _ hm) (by simp [Effect.isPhysics])
    · simp at hm

theorem moveBall_effects_requestFrame (e : Env) (s : State) :
    Effect.requestAnimationFrame ∉ (moveBall e s).2 := fun h =>
  absurd (moveBall_physics e s _ h) (by simp [Effect.isPhysics])

/-! ## A frame in which the ball is lost -/

theorem brickWidth_sampleEnv : brickWidth sampleEnv = 70 := by
  norm_num [brickWidth, sampleEnv, cols]

theorem setupBricks_sampleEnv : setupBricks sampleEnv =
    [{ x := 5, y := 30, status := true }, { x := 85, y := 30, status := true },
     { x := 165, y := 30, status := true }, { x := 245, y := 30, status := true },
     { x := 325, y := 30, status := true }, { x := 405, y := 30, status := true },
     { x := 485, y := 30, status := true }, { x := 565, y := 30, status := true },
     { x := 645, y := 30, status := true }, { x := 725, y := 30, status := true },
     { x := 5, y := 60, status := true }, { x := 85, y := 60, status := true },
     { x := 165, y := 60, status := true }, { x := 245, y := 60, status := true },
     { x := 325, y := 60, status := true }, { x := 405, y := 60, status := true },
     { x := 485, y := 60, status := true }, { x := 565, y := 60, status := true },
     { x := 645, y := 60, status := true }, { x := 725, y := 60, status := true },
     { x := 5, y := 90, status := true }, { x := 85, y := 90, status := true },
     { x := 165, y := 90, status := true }, { x := 245, y := 90, status := true },
     { x := 325, y := 90, status := true }, { x := 405, y := 90, status := true },
     { x := 485, y := 90, status := true }, { x := 565, y := 90, status := true },
     { x := 645, y := 90, status := true }, { x := 725, y := 90, status := true }] := by
  simp [sampleEnv, setupBricks, setupRow, rows, cols, List.range_succ, brickWidth]
  norm_num

theorem forEachBrick_none (e : Env) (bs : List Brick) : ∀ s : State,
    (∀ b ∈ bs, struck e s.ball.x s.ball.y s.ball.radius b = false) →
      forEachBrick e s bs = (s, bs, []) := by
  induction bs with
  | nil => intro s _; rfl
  | cons b rest ih =>
    intro s h
    have hb := brickCallback_miss e s b (h b (List.mem_cons_self _ _))
    simp only [forEachBrick, hb]
    rw [ih s (fun c hc => h c (List.mem_cons_of_mem _ hc))]
    rfl

theorem forEachBrick_missedBall (bat : Bat) (bs0 : List Brick) :
    forEachBrick sampleEnv
        { ball := { x := 402, y := 592, radius := 10, dx := 2, dy := 4 }, bat := bat,
          bricks := bs0, score := 0, highscore := 0, gameOver := false }
        (setupBricks sampleEnv) =
      ({ ball := { x := 402, y := 592, radius := 10, dx := 2, dy := 4 }, bat := bat,
         bricks := bs0, score := 0, highscore := 0, gameOver := false },
        setupBricks sampleEnv, []) := by
  apply forEachBrick_none
  rw [setupBricks_sampleEnv]
  simp [struck, overlaps, brickWidth_sampleEnv]
  norm_num [sampleEnv]

theorem moveBall_missedBallState :
    moveBall sampleEnv missedBallState =
      ({ ball := { x := 402, y := 592, radius := 10, dx := 2, dy := 4 }
         bat := { width := 100, height := 10, x := 6, y := 590, dx := 8 }
         bricks := setupBricks sampleEnv
         score := 0
         highscore := 0
         gameOver := true },
        [Effect.play Sound.gameOverSound]) := by
  have h1 : integrate missedBallState =
      { ball := { x := 402, y := 592, radius := 10, dx := 2, dy := 4 }
        bat := { width := 100, height := 10, x := 6, y := 590, dx := 8 }
        bricks := setupBricks sampleEnv, score := 0, highscore := 0, gameOver := false } := by
    simp [integrate, missedBallState]; norm_num
  have h2 : sideWalls sampleEnv (integrate missedBallState) = (integrate missedBallState, []) := by
    rw [h1]; simp [sideWalls, sampleEnv]; norm_num
  have h3 : ceiling (integrate missedBallState) = (integrate missedBallState, []) := by
    rw [h1]; simp [ceiling]; norm_num
  have h4 : batHit (integrate missedBallState) = (integrate missedBallState, []) := by
    rw [h1]; simp [batHit]; norm_num
  simp only [moveBall, h2, h3, h4, brickLoop]
  rw [h1]
  simp only [forEachBrick_missedBall]
  simp [lossCheck, sampleEnv]
  norm_num

/-! ## A played session in which the last brick falls as the ball is lost -/

theorem run_append (e : Env) (s : State) (evs evs2 : List Event) :
    run e s (evs ++ evs2) = run e (run e s evs) evs2 := by
  simp [run, List.foldl_append]

theorem step_gameOver (e : Env) (s : State) (ev : Event) (h : s.gameOver = true) :
    (step e s ev).gameOver = true := by
  cases ev with
  | moveBall =>
    have hg := (moveBall_spec e s).2.2.2.2.2.2.2.2
    simp only [step, hg, h, Bool.true_or]
  | keydown key =>
    simp only [step, (moveBat_fields e key s).2.2.2.2, h]

theorem run_gameOver (e : Env) (evs : List Event) : ∀ s : State,
    s.gameOver = true → (run e s evs).gameOver = true := by
  induction evs with
  | nil => intro s h; simpa [run] using h
  | cons ev rest ih =>
    intro s h
    have := ih (step e s ev) (step_gameOver e s ev h)
    simpa [run] using this

theorem run_score_le (e : Env) (evs : List Event) : ∀ s : State,
    s.score ≤ (run e s evs).score := by
  induction evs with
  | nil => intro s; simp [run]
  | cons ev rest ih =>
    intro s
    have h1 := (step_mono e s ev).1
    have h2 := ih (step e s ev)
    have h3 : run e s (ev :: rest) = run e (step e s ev) rest := by simp [run]
    rw [h3]
    exact le_trans h1 h2

/-- Every earlier moment of a session that ends with the loss flag clear and the score below
`rows * cols` has the loss flag clear and the score below `rows * cols`: each of its frames was
run by a call of `draw()` that went on to request the next frame. -/
theorem run_take_playing (e : Env) (s : State) (evs : List Event) (k : ℕ)
    (hg : (run e s evs).gameOver = false) (hs : (run e s evs).score < rows * cols) :
    (run e s (evs.take k)).gameOver = false ∧ (run e s (evs.take k)).score < rows * cols := by
  have hsplit : run e s evs = run e (run e s (evs.take k)) (evs.drop k) := by
    rw [← run_append, List.take_append_drop]
  constructor
  · cases hk : (run e s (evs.take k)).gameOver
    · rfl
    · have := run_gameOver e (evs.drop k) _ hk
      rw [← hsplit, hg] at this
      exact absurd this (by decide)
  · have := run_score_le e (evs.drop k) (run e s (evs.take k))
    rw [← hsplit] at this
    omega

theorem init_lowEnv : init lowEnv = snapshot 400 60 (-4) (-4) 350 0 1073741823 := by
  decide!

theorem lastBrickRows_1 :
    run lowEnv (snapshot 400 60 (-4) (-4) 350 0 1073741823) (play ".........................") =
      snapshot 300 32 (-4) (-4) 350 3 1073725415 := by
  decide!

theorem lastBrickRows_2 :
    run lowEnv (snapshot 300 32 (-4) (-4) 350 3 1073725415) (play "......LLLLLLLLLLLLLLLLLLL") =
      snapshot 200 84 (-4) 4 198 6 1069527011 := by
  decide!

theorem lastBrickRows_3 :
    run lowEnv (snapshot 200 84 (-4) 4 198 6 1069527011) (play "L.L.L.L.L.L.L.LR......LLL") =
      snapshot 100 64 (-4) 4 118 9 1067427809 := by
  decide!

theorem lastBrickRows_4 :
    run lowEnv (snapshot 100 64 (-4) 4 118 9 1067427809) (play "LLLLL..LLL.L.L.L.L.L.LR..") =
      snapshot 16 76 4 (-4) 14 11 1066378209 := by
  decide!

theorem lastBrickRows_5 :
    run lowEnv (snapshot 16 76 4 (-4) 14 11 1066378209) (play ".........................") =
      snapshot 116 32 4 (-4) 14 12 1066378208 := by
  decide!

theorem lastBrickRows_6 :
    run lowEnv (snapshot 116 32 4 (-4) 14 12 1066378208) (play "............RRRRRRRRRRRRR") =
      snapshot 216 84 4 (-4) 118 12 1066378208 := by
  decide!

theorem lastBrickRows_7 :
    run lowEnv (snapshot 216 84 4 (-4) 118 12 1066378208) (play ".........................") =
      snapshot 316 48 4 (-4) 118 14 1057981408 := by
  decide!

theorem lastBrickRows_8 :
    run lowEnv (snapshot 316 48 4 (-4) 118 14 1057981408) (play "...RRRRRRRRRRRRRRRRRRRRRR") =
      snapshot 416 60 4 4 294 16 1057948608 := by
  decide!

theorem lastBrickRows_9 :
    run lowEnv (snapshot 416 60 4 4 294 16 1057948608) (play "RRRRRRR.R.R.R.R.R.R.R.R.R") =
      snapshot 516 88 4 (-4) 422 19 957219776 := by
  decide!

theorem lastBrickRows_10 :
    run lowEnv (snapshot 516 88 4 (-4) 422 19 957219776) (play "L...........RRRRRRRRRRRRR") =
      snapshot 616 84 4 4 518 23 822870784 := by
  decide!

theorem lastBrickRows_11 :
    run lowEnv (snapshot 616 84 4 4 518 23 822870784) (play "R.R.R.R.R.R.R.RL.........") =
      snapshot 716 64 4 4 574 26 554172928 := by
  decide!

theorem lastBrickRows_12 :
    run lowEnv (snapshot 716 64 4 4 574 26 554172928) (play "..RRRRRRRRRRRRRR.R.......") =
      snapshot 768 84 (-4) 4 694 29 16777216 := by
  decide!

theorem lastBrickRows_13 :
    run lowEnv (snapshot 768 84 (-4) 4 694 29 16777216) (play "..................L.L.L.L") =
      snapshot 668 88 (-4) (-4) 662 29 16777216 := by
  decide!

theorem lastBrickRows_14 :
    run lowEnv (snapshot 668 88 (-4) (-4) 662 29 16777216) (play ".L.L.L.L.L.L.L.L.L.L.L.L.") =
      snapshot 568 84 (-4) 4 566 29 16777216 := by
  decide!

theorem lastBrickRows_15 :
    run lowEnv (snapshot 568 84 (-4) 4 566 29 16777216) (play "L.L.L.L.L.L.L.L.L.L.L.L.L") =
      snapshot 468 88 (-4) (-4) 462 29 16777216 := by
  decide!

theorem lastBrickRows_16 :
    run lowEnv (snapshot 468 88 (-4) (-4) 462 29 16777216) (play ".L.L.L.L.L.L.L.L..") =
      snapshot 396 88 (-4) 4 398 29 16777216 := by
  decide!

theorem lastBrickState_eq : lastBrickState = snapshot 396 88 (-4) 4 398 29 16777216 := by
  simp only [lastBrickState, lastBrickSession, lastBrickRows, List.flatMap_cons, List.flatMap_nil,
    List.append_nil, run_append, init_lowEnv, lastBrickRows_1, lastBrickRows_2, lastBrickRows_3,
    lastBrickRows_4, lastBrickRows_5, lastBrickRows_6, lastBrickRows_7, lastBrickRows_8,
    lastBrickRows_9, lastBrickRows_10, lastBrickRows_11, lastBrickRows_12, lastBrickRows_13,
    lastBrickRows_14, lastBrickRows_15, lastBrickRows_16]

theorem moveBall_lastBrickState :
    moveBall lowEnv lastBrickState =
      ({ snapshot 392 92 (-4) (-4) 398 30 0 with gameOver := true },
        [Effect.rewind Sound.hitBrickSound, Effect.play Sound.hitBrickSound, Effect.setItem 30,
          Effect.play Sound.gameOverSound]) := by
  rw [lastBrickState_eq]
  decide!

/-! ## Properties -/

/-- Claim C1, evaluated on the code. In an 800 pixel wide window with a 100 pixel wide bat
(so `0 < w <= W`) the bat starts at `x = 350`. After 44 `ArrowLeft` events it is at `x = -2`,
left of the playfield, and after 44 `ArrowRight` events it is at `x = 702`, beyond
`W - w = 700`: the guards of `moveBat` test the position before the move of 8. -/
theorem bat_leaves_playfield :
    (0 : ℚ) < sampleEnv.batWidth ∧ sampleEnv.batWidth ≤ sampleEnv.canvasWidth ∧
      (init sampleEnv).bat.x = 350 ∧
      (run sampleEnv (init sampleEnv) (List.replicate 44 (Event.keydown "ArrowLeft"))).bat.x =
        -2 ∧
      (run sampleEnv (init sampleEnv) (List.replicate 44 (Event.keydown "ArrowRight"))).bat.x =
        702 ∧
      sampleEnv.canvasWidth - sampleEnv.batWidth = 700 := by
  refine ⟨by norm_num [sampleEnv], by norm_num [sampleEnv], by norm_num [init, sampleEnv],
    ?_, ?_, by norm_num [sampleEnv]⟩
  · simp [run, step, moveBat, init, sampleEnv, List.replicate]
    norm_num
  · simp [run, step, moveBat, init, sampleEnv, List.replicate]
    norm_num

/-- Claim C2. In every state reached from the initial session state by a finite sequence of
`moveBall` calls and key events, one more step does not decrease `score`, and `score` is at most
`rows * cols = 30`. -/
theorem score_monotone_bounded (e : Env) (evs : List Event) (ev : Event) :
    (run e (init e) evs).score ≤ (step e (run e (init e) evs) ev).score ∧
      (run e (init e) evs).score ≤ rows * cols ∧ rows * cols = 30 := by
  refine ⟨(step_mono e _ ev).1, ?_, rfl⟩
  have := (run_inv e evs (init e) (init_inv e)).1
  omega

/-- Claim C3, as amended. In a frame of `draw()` that starts with `gameOver` false and in which
`moveBall` both passes the bottom edge (`ball.y + radius > height` after integration, so the loss
flag is set) and brings `score` to `rows * cols`, the win test runs after `moveBall`: the effects
of the frame end with the message "WIN", and the frame draws no "GAME OVER" message and requests
no further animation frame. -/
theorem win_check_runs_after_loss (e : Env) (s : State) (h0 : s.gameOver = false)
    (hl : s.ball.y + s.ball.dy + s.ball.radius > e.canvasHeight)
    (hw : (moveBall e s).1.score = rows * cols) :
    (draw e s).1.gameOver = true ∧
      (draw e s).2 = frameDrawing ++ (moveBall e s).2 ++ [Effect.drawMessage "WIN"] ∧
      Effect.drawMessage "GAME OVER" ∉ (draw e s).2 ∧
      Effect.requestAnimationFrame ∉ (draw e s).2 := by
  refine ⟨?_, ?_, draw_no_loss_message e s h0, ?_⟩
  · rw [draw_of_win e s h0 hw]; exact moveBall_sets_gameOver e s hl
  · rw [draw_of_win e s h0 hw]
  · rw [draw_of_win e s h0 hw]
    intro hm
    simp only [frameDrawing, List.mem_append, List.mem_cons, List.mem_singleton] at hm
    rcases hm with (hm | hm) | hm
    · simp at hm
    · exact moveBall_effects_requestFrame e s hm
    · simp at hm

/-- The amended claim C3 applied to frame 394 of the played session `lastBrickSession`: the
ball, coming down through the gap between two columns, enters the last brick from the side as it
passes the bottom edge. -/
theorem win_check_runs_after_loss_witness :
    lastBrickState.gameOver = false ∧
      lastBrickState.ball.y + lastBrickState.ball.dy + lastBrickState.ball.radius >
        lowEnv.canvasHeight ∧
      (moveBall lowEnv lastBrickState).1.score = rows * cols ∧
      ((draw lowEnv lastBrickState).1.gameOver = true ∧
        (draw lowEnv lastBrickState).2 =
          frameDrawing ++ (moveBall lowEnv lastBrickState).2 ++ [Effect.drawMessage "WIN"] ∧
        Effect.drawMessage "GAME OVER" ∉ (draw lowEnv lastBrickState).2 ∧
        Effect.requestAnimationFrame ∉ (draw lowEnv lastBrickState).2) :=
  ⟨by rw [lastBrickState_eq]; rfl, by rw [lastBrickState_eq]; decide!,
    by rw [moveBall_lastBrickState]; rfl,
    win_check_runs_after_loss lowEnv lastBrickState (by rw [lastBrickState_eq]; rfl)
      (by rw [lastBrickState_eq]; decide!)
      (by rw [moveBall_lastBrickState]; rfl)⟩

/-- Claim C3 fails as stated. In a window 100 pixels high the session `lastBrickSession`, played
from the initial state with at most one key event per frame, is at every moment still being played
(loss flag clear, score below 30) and ends, after 393 frames, with the ball at `(396, 88)` moving
down and only the brick at `(325, 90)` alive. Frame 394 moves the ball to `(392, 92)`: it sets the
loss flag and brings `score` to 30, and what it draws last is the message "WIN"; it draws no
"GAME OVER" message and, requesting no further frame, none is drawn later. -/
theorem lost_and_won_frame_shows_win :
    lastBrickState = run lowEnv (init lowEnv) lastBrickSession ∧
      (∀ k : ℕ, (run lowEnv (init lowEnv) (lastBrickSession.take k)).gameOver = false ∧
        (run lowEnv (init lowEnv) (lastBrickSession.take k)).score < rows * cols) ∧
      lastBrickState.ball = { x := 396, y := 88, radius := 10, dx := -4, dy := 4 } ∧
      lastBrickState.score = 29 ∧
      lastBrickState.bricks.filter (fun b => b.status) = [{ x := 325, y := 90, status := true }] ∧
      lastBrickState.gameOver = false ∧
      lastBrickState.ball.y + lastBrickState.ball.dy + lastBrickState.ball.radius >
        lowEnv.canvasHeight ∧
      (moveBall lowEnv lastBrickState).1.gameOver = true ∧
      (moveBall lowEnv lastBrickState).1.score = rows * cols ∧
      (draw lowEnv lastBrickState).2 =
        [Effect.clearRect, Effect.drawBricks, Effect.drawBall, Effect.drawBat, Effect.drawScore,
          Effect.rewind Sound.hitBrickSound, Effect.play Sound.hitBrickSound, Effect.setItem 30,
          Effect.play Sound.gameOverSound, Effect.drawMessage "WIN"] := by
  have he := lastBrickState_eq
  have hm := moveBall_lastBrickState
  have hg : lastBrickState.gameOver = false := by rw [he]; rfl
  have hs : lastBrickState.score = 29 := by rw [he]; rfl
  refine ⟨rfl, ?_, by rw [he]; decide!, hs, by rw [he]; decide!, hg, by rw [he]; decide!,
    by rw [hm], by rw [hm]; rfl, ?_⟩
  · intro k
    apply run_take_playing
    · exact hg
    · show lastBrickState.score < rows * cols
      rw [hs]; decide
  · rw [draw_of_win lowEnv lastBrickState hg (by rw [hm]; rfl), hm]
    rfl

/-- Claim C4, as amended. In a frame N of `draw()` that starts with `gameOver` false and in
which `ball.y + radius > height` after integration, the loss flag is set during frame N and frame
N draws no loss message; when `score` is not `rows * cols` after `moveBall`, frame N ends by
requesting another animation frame; and the next call of `draw()` on the resulting state draws
the loss message, changes no global and requests no frame. -/
theorem loss_message_one_frame_later (e : Env) (s : State) (h0 : s.gameOver = false)
    (hl : s.ball.y + s.ball.dy + s.ball.radius > e.canvasHeight) :
    (draw e s).1.gameOver = true ∧
      Effect.drawMessage "GAME OVER" ∉ (draw e s).2 ∧
      ((moveBall e s).1.score ≠ rows * cols →
        (draw e s).2 = frameDrawing ++ (moveBall e s).2 ++ [Effect.requestAnimationFrame]) ∧
      draw e (draw e s).1 = ((draw e s).1, [Effect.drawMessage "GAME OVER"]) := by
  have hg : (draw e s).1.gameOver = true := by
    by_cases hw : (moveBall e s).1.score = rows * cols
    · rw [draw_of_win e s h0 hw]; exact moveBall_sets_gameOver e s hl
    · rw [draw_of_continue e s h0 hw]; exact moveBall_sets_gameOver e s hl
  refine ⟨hg, draw_no_loss_message e s h0, ?_, draw_of_gameOver e _ hg⟩
  intro hw
  rw [draw_of_continue e s h0 hw]

/-- The amended claim C4 applied to a frame of an ordinary session in which the ball passes the
bottom edge next to the bat. -/
theorem loss_message_one_frame_later_witness :
    missedBallState.gameOver = false ∧
      missedBallState.ball.y + missedBallState.ball.dy + missedBallState.ball.radius >
        sampleEnv.canvasHeight ∧
      ((draw sampleEnv missedBallState).1.gameOver = true ∧
        Effect.drawMessage "GAME OVER" ∉ (draw sampleEnv missedBallState).2 ∧
        ((moveBall sampleEnv missedBallState).1.score ≠ rows * cols →
          (draw sampleEnv missedBallState).2 =
            frameDrawing ++ (moveBall sampleEnv missedBallState).2 ++
              [Effect.requestAnimationFrame]) ∧
        draw sampleEnv (draw sampleEnv missedBallState).1 =
          ((draw sampleEnv missedBallState).1, [Effect.drawMessage "GAME OVER"])) :=
  ⟨rfl, by norm_num [missedBallState, sampleEnv],
    loss_message_one_frame_later sampleEnv missedBallState rfl
      (by norm_num [missedBallState, sampleEnv])⟩

/-- Claim C4 fails as stated. The frame run from `missedBallState` sets the loss flag, draws
no message and ends with `requestAnimationFrame`. -/
theorem loss_frame_requests_next_frame :
    Inv missedBallState ∧ missedBallState.gameOver = false ∧
      missedBallState.ball.y + missedBallState.ball.dy + missedBallState.ball.radius >
        sampleEnv.canvasHeight ∧
      (draw sampleEnv missedBallState).1.gameOver = true ∧
      (draw sampleEnv missedBallState).2 =
        [Effect.clearRect, Effect.drawBricks, Effect.drawBall, Effect.drawBat, Effect.drawScore,
          Effect.play Sound.gameOverSound, Effect.requestAnimationFrame] := by
  have hm := moveBall_missedBallState
  have hd := draw_of_continue sampleEnv missedBallState rfl (by rw [hm]; decide)
  refine ⟨⟨?_, le_refl _⟩, rfl, by norm_num [missedBallState, sampleEnv], by rw [hd, hm],
    by rw [hd, hm]; rfl⟩
  show 0 + alive (setupBricks sampleEnv) = rows * cols
  rw [setupBricks_alive]; omega

/-- Claim C5. One call of `moveBall` sets `status` to false on exactly the bricks that were
alive and overlap the ball at its position after integration, keeps every other brick as it was,
keeps every position, and adds to `score` the number of such bricks. -/
theorem moveBall_bricks_and_score (e : Env) (s : State) :
    (moveBall e s).1.bricks =
        s.bricks.map (fun b =>
          if b.status = true ∧
              overlaps e (s.ball.x + s.ball.dx) (s.ball.y + s.ball.dy) s.ball.radius b then
            { x := b.x, y := b.y, status := false }
          else b) ∧
      (moveBall e s).1.score =
        s.score + (s.bricks.filter (fun b => b.status &&
          decide (overlaps e (s.ball.x + s.ball.dx) (s.ball.y + s.ball.dy) s.ball.radius b))).length := by
  obtain ⟨-, -, -, -, -, -, hb, hsc, -⟩ := moveBall_spec e s
  refine ⟨?_, ?_⟩
  · rw [hb]
    apply List.map_congr_left
    intro b _
    simp [struck]
  · rw [hsc]; rfl

/-- Claim C6. In a session whose stored high score is a non-negative integer (or absent) and
whose score starts at 0, every state reached by `moveBall` calls and key events has
`highscore >= score`, and one more step does not decrease `highscore`. -/
theorem highscore_ge_score (e : Env) (evs : List Event) (ev : Event) :
    (init e).score = 0 ∧
      (run e (init e) evs).score ≤ (run e (init e) evs).highscore ∧
      (run e (init e) evs).highscore ≤ (step e (run e (init e) evs) ev).highscore :=
  ⟨rfl, (run_inv e evs (init e) (init_inv e)).2, (step_mono e _ ev).2⟩

/-- Claim C7. After one call of `moveBall`, `ball.dy` is the old `dy` times `(-1) ^ n`, where
`n` counts the ceiling test, the bat test and the alive bricks that overlap the ball, all taken at
the position after integration. -/
theorem moveBall_dy (e : Env) (s : State) :
    (moveBall e s).1.ball.dy =
      s.ball.dy * (-1) ^
        ((if s.ball.y + s.ball.dy - s.ball.radius < 0 then 1 else 0) +
          (if s.ball.y + s.ball.dy + s.ball.radius > s.bat.y ∧ s.bat.x < s.ball.x + s.ball.dx ∧
              s.ball.x + s.ball.dx < s.bat.x + s.bat.width then 1 else 0) +
          (s.bricks.filter (fun b => b.status &&
            decide (overlaps e (s.ball.x + s.ball.dx) (s.ball.y + s.ball.dy)
              s.ball.radius b))).length) := by
  obtain ⟨-, -, -, -, hdy, -⟩ := moveBall_spec e s
  rw [hdy]; rfl

/-- Claim C8. After one call of `moveBall`, `ball.dx` is the negated old `dx` when the position
after integration satisfies `x + radius > width` or `x - radius < 0`, and the old `dx` otherwise,
whatever the bat and the bricks are. With `x = 5`, `radius = 10`, `dx = -3` and width 800 the new
`dx` is 3. -/
theorem moveBall_dx (e : Env) (s : State) :
    (moveBall e s).1.ball.dx =
        (if s.ball.x + s.ball.dx + s.ball.radius > e.canvasWidth ∨
            s.ball.x + s.ball.dx - s.ball.radius < 0 then -s.ball.dx else s.ball.dx) ∧
      (moveBall { e with canvasWidth := 800 }
        { s with ball := { s.ball with x := 5, radius := 10, dx := -3 } }).1.ball.dx = 3 := by
  refine ⟨(moveBall_spec e s).2.2.2.1, ?_⟩
  rw [(moveBall_spec _ _).2.2.2.1]
  norm_num

/-- Claim C9. `setupBricks` produces `rows * cols = 30` bricks, all alive; the brick of
`(row, col)` is at index `row * 10 + col`, with `x = col * (brickWidth + p) + p / 2` and
`y = row * (h + p) + 30`, where `brickWidth = W / 10 - p`. For `W = 800` and `p = 10`:
`brickWidth = 70`, the brick of `(0, 0)` has `x = 5` and the brick of `(0, 1)` has `x = 85`. -/
theorem setupBricks_layout (e : Env) :
    (setupBricks e).length = rows * cols ∧ rows * cols = 30 ∧
      (setupBricks e).all (fun b => b.status) = true ∧
      (∀ (row : Fin 3) (col : Fin 10),
        (setupBricks e)[row.val * 10 + col.val]? =
          some
            { x := (col.val : ℚ) * (brickWidth e + e.brickPadding) + e.brickPadding / 2
              y := (row.val : ℚ) * (e.brickHeight + e.brickPadding) + 30
              status := true }) ∧
      brickWidth e = e.canvasWidth / 10 - e.brickPadding ∧
      brickWidth { e with canvasWidth := 800, brickPadding := 10 } = 70 ∧
      ((setupBricks { e with canvasWidth := 800, brickPadding := 10 })[0 * 10 + 0]?.map
        fun b => b.x) = some 5 ∧
      ((setupBricks { e with canvasWidth := 800, brickPadding := 10 })[0 * 10 + 1]?.map
        fun b => b.x) = some 85 := by
  refine ⟨?_, ?_, ?_, ?_, ?_, ?_, ?_, ?_⟩
  · simp [setupBricks, setupRow, rows, cols, List.range_succ]
  · rfl
  · simp [setupBricks, setupRow, rows, cols, List.range_succ]
  · intro row col
    fin_cases row <;> fin_cases col <;>
      simp [setupBricks, setupRow, rows, cols, List.range_succ]
  · simp [brickWidth, cols]
  · simp [brickWidth, cols]; norm_num
  · simp [setupBricks, setupRow, rows, cols, List.range_succ, brickWidth]; norm_num
  · simp [setupBricks, setupRow, rows, cols, List.range_succ, brickWidth]; norm_num

/-- Claim C10. In every state reached from the initial session state by `moveBall` calls and
key events, `score` plus the number of alive bricks is `rows * cols = 30`; so `score` equals
`rows * cols`, in such a state and in the state on which `draw()` makes its win test after
`moveBall`, exactly when no brick is alive. -/
theorem score_plus_alive (e : Env) (evs : List Event) :
    (run e (init e) evs).score + alive (run e (init e) evs).bricks = rows * cols ∧
      rows * cols = 30 ∧
      ((run e (init e) evs).score = rows * cols ↔
        (run e (init e) evs).bricks.all (fun b => !b.status) = true) ∧
      ((moveBall e (run e (init e) evs)).1.score = rows * cols ↔
        (moveBall e (run e (init e) evs)).1.bricks.all (fun b => !b.status) = true) :=
  ⟨(run_inv e evs (init e) (init_inv e)).1, rfl,
    inv_win_iff _ (run_inv e evs (init e) (init_inv e)),
    inv_win_iff _ (step_inv e _ Event.moveBall (run_inv e evs (init e) (init_inv e)))⟩

end Breakout
